import Mathlib

/- Verification of the conversation-assembly, streaming-aggregation and
document-processing logic of the DeepSeek document processor
(streamlit_app.py).

Modelling conventions:
- Python strings are modelled as lists of characters (`Str`), so that
  slicing (`text[:50000]`, `content[:8000]`, `line[6:]`) and `len` become
  `List.take`, `List.drop` and `List.length`.
- External libraries are modelled as oracles: `json.loads` on a stream
  fragment becomes a parameter `parse : Str → FragParse` describing which
  `delta` fields the fragment carries (or that it is malformed); the
  pdfplumber / python-docx / chardet extractors become parameters holding
  the text each of them would extract from the uploaded bytes; the
  `requests` HTTP layer becomes an explicit outcome value (a raised
  exception, or a response with status code, body text and parsed body
  shape).
- Python exceptions are modelled explicitly: a function whose Python
  counterpart can raise to its caller returns an `Except`-like shape or an
  `Option Str` error component; `str(e)` for `KeyError(k)` is the quoted
  key and for `IndexError` on list subscripting is "list index out of
  range", per Python semantics.
- Streamlit session state is the `SessionState` structure (the
  float-valued `temperature` field is omitted: no claim mentions it and it
  never feeds the logic modelled here). -/

abbrev Str := List Char

def chars (s : String) : Str := s.toList

/- Substring containment, Python's `in` operator on strings. -/
def pyContains (pat s : Str) : Bool := decide (pat <:+: s)

structure Msg where
  role : Str
  content : Str
deriving DecidableEq

structure Doc where
  name : Str
  content : Str
  size : Nat
deriving DecidableEq

/- ==================== File processing (process_uploaded_file) ========= -/

/- The placeholder text stored for a declared type that matches no
supported category: `f"[Unsupported file type: {file_type}]"`. -/
def unsupportedPlaceholder (fileType : Str) : Str :=
  chars "[Unsupported file type: " ++ fileType ++ chars "]"

/- `process_uploaded_file`: routing on the declared MIME type, then
truncation to 50,000 characters; `size` is the untruncated length.
`pdfText`, `docxText`, `txtText` are the oracle results of the three
external extractors on this file's bytes. -/
def process_uploaded_file (fileName fileType : Str)
    (pdfText docxText txtText : Str) : Doc :=
  let text : Str :=
    if pyContains (chars "pdf") fileType then pdfText
    else if pyContains (chars "word") fileType || pyContains (chars "docx") fileType then docxText
    else if pyContains (chars "text") fileType || pyContains (chars "txt") fileType then txtText
    else unsupportedPlaceholder fileType
  { name := fileName, content := text.take 50000, size := text.length }

/- ==================== Streaming client (call_deepseek_api_stream) ===== -/

/- Parse outcome of `json.loads(data)` followed by
`chunk["choices"][0]["delta"]`. The loop catches only
`json.JSONDecodeError` and `KeyError` (`malformed`, skipped). Any other
exception — e.g. `IndexError` from `chunk["choices"][0]` on a parsed
body with an empty choices list ("list index out of range"), or
`TypeError` when the body or a level of it is not subscriptable — is
NOT caught and propagates out of the generator (`raises`, carrying
`str(e)`). Otherwise the fragment is a delta object with its optional
`reasoning_content` / `content` fields. -/
inductive FragParse where
  | malformed
  | raises (emsg : Str)
  | delta (reasoning_content : Option Str) (content : Option Str)
deriving DecidableEq

inductive StreamEvent where
  | reasoning (content : Str)
  | content (content : Str)
  | done (reasoning : Str) (content : Str)
deriving DecidableEq

/- The line loop of `call_deepseek_api_stream`, with the two accumulators
`reasoning_collected` and `content_collected` threaded explicitly. The
result is the list of events the generator yields, paired with the
message of an uncaught exception when one is raised: on a `raises`
fragment the generator dies on the spot — no event for that fragment,
no later line processed, and the final `done` yield never runs. -/
def streamLoop (parse : Str → FragParse) :
    List Str → Str → Str → List StreamEvent × Option Str
  | [], rAcc, cAcc => ([.done rAcc cAcc], none)
  | line :: rest, rAcc, cAcc =>
    if line = [] then streamLoop parse rest rAcc cAcc
    else if (chars "data: ").isPrefixOf line then
      let data := line.drop 6
      if data = chars "[DONE]" then ([.done rAcc cAcc], none)
      else
        match parse data with
        | .malformed => streamLoop parse rest rAcc cAcc
        | .raises e => ([], some e)
        | .delta r c =>
          let rEvents : List StreamEvent :=
            match r with | some rc => [.reasoning rc] | none => []
          let cEvents : List StreamEvent :=
            match c with | some cc => [.content cc] | none => []
          let rAcc2 := match r with | some rc => rAcc ++ rc | none => rAcc
          let cAcc2 := match c with | some cc => cAcc ++ cc | none => cAcc
          let res := streamLoop parse rest rAcc2 cAcc2
          (rEvents ++ (cEvents ++ res.1), res.2)
    else streamLoop parse rest rAcc cAcc

/- What `call_deepseek_api_stream` delivers to its consumer when the
transport hands over `lines`: the yielded events, and the message of
the uncaught exception if one terminated the generator. -/
def call_deepseek_api_stream (parse : Str → FragParse) (lines : List Str) :
    List StreamEvent × Option Str :=
  streamLoop parse lines [] []

/- Transport outcome for a streaming call: the POST (or the line
iteration) raises, or it delivers a finite list of SSE lines. -/
inductive StreamTransport where
  | exn (emsg : Str)
  | ok (lines : List Str)

/- What a consumer iterating the generator observes. The `try/except` in
`call_deepseek_api` wraps only the creation of the generator object; the
generator body — including the `requests.post` call — runs lazily at
iteration time, outside the `try`, so a transport exception reaches the
consumer (second component `some e`) instead of being recovered; so
does an uncaught exception raised while parsing a fragment. -/
def call_deepseek_api_stream_run (parse : Str → FragParse) :
    StreamTransport → List StreamEvent × Option Str
  | .exn e => ([], some e)
  | .ok lines => call_deepseek_api_stream parse lines

def propagatesException (r : List StreamEvent × Option Str) : Bool :=
  r.2.isSome

/- ==================== Buffered client (call_deepseek_api) ============= -/

structure ApiResult where
  content : Str
  reasoning : Str
deriving DecidableEq

structure MsgJson where
  content : Option Str
  reasoning_content : Option Str
deriving DecidableEq

structure ChoiceJson where
  message : Option MsgJson
deriving DecidableEq

/- Shape of `response.json()`: the body is not valid JSON (the call
raises, message `emsg`), or it parsed with or without a "choices" key. -/
inductive BodyJson where
  | invalid (emsg : Str)
  | parsed (choices : Option (List ChoiceJson))
deriving DecidableEq

/- Outcome of the buffered `requests.post`: a transport exception with
message `str(e)`, or an HTTP response. -/
inductive HttpOutcome where
  | exn (emsg : Str)
  | resp (status : Nat) (text : Str) (body : BodyJson)
deriving DecidableEq

/- `result["choices"][0]`: KeyError "choices" when the key is missing,
IndexError when the list is empty. -/
def extractChoice : BodyJson → Except Str ChoiceJson
  | .invalid e => .error e
  | .parsed none => .error (chars "\x27choices\x27")
  | .parsed (some []) => .error (chars "list index out of range")
  | .parsed (some (c :: _)) => .ok c

/- The 200-branch field extraction:
`reasoning = choice.get("message", {}).get("reasoning_content", "")`
(never raises), then `content = choice["message"]["content"]` (KeyError
when "message" or "content" is missing). -/
def extractResult (b : BodyJson) : Except Str ApiResult :=
  match extractChoice b with
  | .error e => .error e
  | .ok choice =>
    let reasoning : Str :=
      match choice.message with
      | none => []
      | some m => m.reasoning_content.getD []
    match choice.message with
    | none => .error (chars "\x27message\x27")
    | some m =>
      match m.content with
      | none => .error (chars "\x27content\x27")
      | some content => .ok { content := content, reasoning := reasoning }

/- Buffered `call_deepseek_api`: the whole body sits inside
`try/except Exception`, so every raise inside it — transport, JSON
decoding, shape errors — is recovered into a Connection Error result. -/
def call_deepseek_api (outcome : HttpOutcome) : ApiResult :=
  match outcome with
  | .exn e => { content := chars "❌ Connection Error: " ++ e, reasoning := [] }
  | .resp status text body =>
    if status = 200 then
      match extractResult body with
      | .ok r => r
      | .error e =>
          { content := chars "❌ Connection Error: " ++ e, reasoning := [] }
    else
      { content := chars "❌ API Error: " ++ chars (Nat.repr status)
          ++ chars " - " ++ text,
        reasoning := [] }

/- ==================== Conversation builder ============================ -/

def systemMsg (systemPrompt : Str) : Msg :=
  { role := chars "system", content := systemPrompt }

/- One labelled document section of the context block:
`f"--- Document {idx}: {name} ---\n" + content[:8000] + "\n\n"`. -/
def docSection (idx : Nat) (d : Doc) : Str :=
  chars "--- Document " ++ chars (Nat.repr idx) ++ chars ": " ++ d.name
    ++ chars " ---\n" ++ d.content.take 8000 ++ chars "\n\n"

/- The `context += ...` loop over `enumerate(docs, 1)`. -/
def docContextLoop : Str → Nat → List Doc → Str
  | acc, _, [] => acc
  | acc, idx, d :: rest => docContextLoop (acc ++ docSection idx d) (idx + 1) rest

def docContext (docs : List Doc) : Str :=
  docContextLoop (chars "=== DOCUMENTS ===\n\n") 1 docs

def docPreambleMsg (docs : List Doc) : Msg :=
  { role := chars "user",
    content := chars "Please process the following documents. They are attached for reference throughout our conversation:\n\n"
      ++ docContext docs }

def ackMsg : Msg :=
  { role := chars "assistant",
    content := chars "I have loaded the documents. I will refer to them as needed. Please tell me what you\x27d like me to do." }

/- `msg["role"] in ["user", "assistant"]`. -/
def historyKeep (m : Msg) : Bool :=
  m.role = chars "user" || m.role = chars "assistant"

/- Steps 1-3 of `build_conversation_messages`: system message, the
one-time document pair, filtered history; second component is the value
`documents_attached` holds afterwards. -/
def buildBase (systemPrompt : Str) (docs : List Doc) (attached : Bool)
    (history : List Msg) : List Msg × Bool :=
  let afterDocs : List Msg × Bool :=
    if !docs.isEmpty && !attached then
      ([systemMsg systemPrompt, docPreambleMsg docs, ackMsg], true)
    else
      ([systemMsg systemPrompt], attached)
  (afterDocs.1 ++ history.filter historyKeep, afterDocs.2)

/- Step 4: `if not messages or messages[-1]["role"] != "user" or
messages[-1]["content"] != new_user_prompt: append`. -/
def appendCurrentPrompt (ms : List Msg) (newUserPrompt : Str) : List Msg :=
  match ms.getLast? with
  | some m =>
    if m.role = chars "user" && m.content = newUserPrompt then ms
    else ms ++ [{ role := chars "user", content := newUserPrompt }]
  | none => ms ++ [{ role := chars "user", content := newUserPrompt }]

def build_conversation_messages (systemPrompt : Str) (docs : List Doc)
    (attached : Bool) (history : List Msg) (newUserPrompt : Str) :
    List Msg × Bool :=
  let base := buildBase systemPrompt docs attached history
  (appendCurrentPrompt base.1 newUserPrompt, base.2)

/- ==================== Session state =================================== -/

structure SessionState where
  messages : List Msg
  api_key : Str
  uploaded_files_content : List Doc
  current_mode : Str
  system_prompt : Str
  documents_attached : Bool
  stream : Bool
  template : Str
deriving DecidableEq

/- `build_conversation_messages` as it acts on the session: it reads
`system_prompt`, `uploaded_files_content`, `documents_attached` and
`messages`, and its only write is `st.session_state.documents_attached =
True` inside the document-attachment branch. -/
def buildStep (s : SessionState) (newUserPrompt : Str) :
    List Msg × SessionState :=
  let r := build_conversation_messages s.system_prompt
    s.uploaded_files_content s.documents_attached s.messages newUserPrompt
  (r.1, { s with documents_attached := r.2 })

/- Sidebar upload handler: wholesale replacement of the store, then
`st.session_state.documents_attached = False`. -/
def replaceDocuments (s : SessionState) (newDocs : List Doc) : SessionState :=
  { s with uploaded_files_content := newDocs, documents_attached := false }

/- "Clear Documents" button. -/
def clearDocuments (s : SessionState) : SessionState :=
  { s with uploaded_files_content := [], documents_attached := false }

/- "New Conversation" button. -/
def newConversation (s : SessionState) : SessionState :=
  { s with messages := [], documents_attached := false }

/- ==================== Helper definitions for the statements =========== -/

def userMsg (content : Str) : Msg := { role := chars "user", content := content }

def evReasoningFrag : StreamEvent → Option Str
  | .reasoning s => some s
  | _ => none

def evContentFrag : StreamEvent → Option Str
  | .content s => some s
  | _ => none

def evIsDone : StreamEvent → Bool
  | .done _ _ => true
  | _ => false

/- Concatenation, in emission order, of the reasoning fragments carried
by a list of events. -/
def evReasonings (evs : List StreamEvent) : Str :=
  (evs.filterMap evReasoningFrag).flatten

def evContents (evs : List StreamEvent) : Str :=
  (evs.filterMap evContentFrag).flatten

/- The parse oracle for the scripted example of the spec: the two
well-formed fragments of the script, everything else malformed. -/
def scriptedParse : Str → FragParse := fun s =>
  if s = chars "\x7b\"choices\":[\x7b\"delta\":\x7b\"reasoning_content\":\"Hi\"\x7d\x7d]\x7d" then
    .delta (some (chars "Hi")) none
  else if s = chars "\x7b\"choices\":[\x7b\"delta\":\x7b\"content\":\"Hello\"\x7d\x7d]\x7d" then
    .delta none (some (chars "Hello"))
  else .malformed

/- The scripted SSE input of the spec: a reasoning fragment "Hi", a
content fragment "Hello", then the `[DONE]` sentinel. -/
def scriptedLines : List Str :=
  [chars "data: \x7b\"choices\":[\x7b\"delta\":\x7b\"reasoning_content\":\"Hi\"\x7d\x7d]\x7d",
   chars "data: \x7b\"choices\":[\x7b\"delta\":\x7b\"content\":\"Hello\"\x7d\x7d]\x7d",
   chars "data: [DONE]"]

def constMalformed : Str → FragParse := fun _ => .malformed

def fragRaises : FragParse → Bool
  | .raises _ => true
  | _ => false

/- `lineRaises parse line` holds when processing `line` makes the
generator raise: the line is non-empty, carries a `data: ` payload other
than the `[DONE]` sentinel, and parsing that payload raises an uncaught
exception. -/
def lineRaises (parse : Str → FragParse) (line : Str) : Bool :=
  decide (line ≠ []) && (chars "data: ").isPrefixOf line
    && decide (line.drop 6 ≠ chars "[DONE]")
    && fragRaises (parse (line.drop 6))

/- The parse oracle for the uncaught-exception counterexample:
`json.loads` accepts the fragment `\x7b"choices":[]\x7d`, and
`chunk["choices"][0]` then raises IndexError("list index out of range"),
which the loop does not catch. -/
def emptyChoicesParse : Str → FragParse := fun s =>
  if s = chars "\x7b\"choices\":[]\x7d" then
    .raises (chars "list index out of range")
  else .malformed

/- A stream whose first fragment is valid JSON with an empty choices
list, followed by the `[DONE]` sentinel. -/
def emptyChoicesLines : List Str :=
  [chars "data: \x7b\"choices\":[]\x7d", chars "data: [DONE]"]

/- A declared MIME type of 50,001 characters that matches none of the
supported categories; its unsupported-type placeholder is longer than
the 50,000-character storage cap. -/
def hugeFileType : Str := List.replicate 50001 'a'

/- Sample concrete values used to instantiate the theorems. -/
def sampleDoc : Doc := { name := chars "d", content := chars "x", size := 1 }

def sampleSession : SessionState :=
  { messages := [userMsg (chars "hi")]
    api_key := chars "sk-k"
    uploaded_files_content := [sampleDoc]
    current_mode := chars "deepseek-chat"
    system_prompt := chars "S"
    documents_attached := false
    stream := true
    template := chars "Custom (no template)" }

def sampleSessionAttached : SessionState :=
  { sampleSession with documents_attached := true }

/- ==================== Theorems ======================================== -/

/- Structure of the event sequence produced by the stream loop on a
stream none of whose lines raises an uncaught exception: the loop emits
a list of non-terminal events followed by exactly one `done` event
whose fields are the initial accumulators extended by the concatenation
of the emitted reasoning (resp. content) fragments, in order, and no
exception escapes. -/
lemma streamLoop_spec (parse : Str → FragParse) (lines : List Str) :
    ∀ rAcc cAcc : Str,
      (∀ line ∈ lines, lineRaises parse line = false) →
      ∃ evs : List StreamEvent,
        streamLoop parse lines rAcc cAcc =
          (evs ++ [.done (rAcc ++ evReasonings evs) (cAcc ++ evContents evs)],
            none) ∧
        ∀ e ∈ evs, evIsDone e = false := by
  induction lines with
  | nil =>
    intro rAcc cAcc _
    exact ⟨[], by simp [streamLoop, evReasonings, evContents], by simp⟩
  | cons line rest ih =>
    intro rAcc cAcc hok
    have hokRest : ∀ l ∈ rest, lineRaises parse l = false :=
      fun l hl => hok l (List.mem_cons_of_mem _ hl)
    have hokLine : lineRaises parse line = false :=
      hok line (List.mem_cons_self _ _)
    by_cases hEmpty : line = []
    · obtain ⟨evs, h1, h2⟩ := ih rAcc cAcc hokRest
      refine ⟨evs, ?_, h2⟩
      simp only [streamLoop, hEmpty, if_true]
      exact h1
    · by_cases hPre : (chars "data: ").isPrefixOf line = true
      · by_cases hDone : line.drop 6 = chars "[DONE]"
        · refine ⟨[], ?_, by simp⟩
          simp [streamLoop, hEmpty, hPre, hDone, evReasonings, evContents]
        · cases hParse : parse (line.drop 6) with
          | malformed =>
            obtain ⟨evs, h1, h2⟩ := ih rAcc cAcc hokRest
            refine ⟨evs, ?_, h2⟩
            simp only [streamLoop, hEmpty, hPre, hDone, hParse, if_false, if_true]
            exact h1
          | raises e =>
            exfalso
            rw [lineRaises, hParse] at hokLine
            simp [hEmpty, hPre, hDone, fragRaises] at hokLine
          | delta r c =>
            rcases r with _ | rc <;> rcases c with _ | cc
            · obtain ⟨evs, h1, h2⟩ := ih rAcc cAcc hokRest
              refine ⟨evs, ?_, h2⟩
              simp only [streamLoop, hEmpty, hPre, hDone, hParse, if_false, if_true]
              simpa using h1
            · obtain ⟨evs, h1, h2⟩ := ih rAcc (cAcc ++ cc) hokRest
              refine ⟨.content cc :: evs, ?_, ?_⟩
              · simp only [streamLoop, hEmpty, hPre, hDone, hParse, if_false, if_true]
                simp [h1, evReasonings, evContents, evReasoningFrag, evContentFrag,
                  List.filterMap_cons]
              · intro e he
                rcases List.mem_cons.mp he with h | h
                · subst h; rfl
                · exact h2 e h
            · obtain ⟨evs, h1, h2⟩ := ih (rAcc ++ rc) cAcc hokRest
              refine ⟨.reasoning rc :: evs, ?_, ?_⟩
              · simp only [streamLoop, hEmpty, hPre, hDone, hParse, if_false, if_true]
                simp [h1, evReasonings, evContents, evReasoningFrag, evContentFrag,
                  List.filterMap_cons]
              · intro e he
                rcases List.mem_cons.mp he with h | h
                · subst h; rfl
                · exact h2 e h
            · obtain ⟨evs, h1, h2⟩ := ih (rAcc ++ rc) (cAcc ++ cc) hokRest
              refine ⟨.reasoning rc :: .content cc :: evs, ?_, ?_⟩
              · simp only [streamLoop, hEmpty, hPre, hDone, hParse, if_false, if_true]
                simp [h1, evReasonings, evContents, evReasoningFrag, evContentFrag,
                  List.filterMap_cons]
              · intro e he
                rcases List.mem_cons.mp he with h | h
                · subst h; rfl
                · rcases List.mem_cons.mp h with h | h
                  · subst h; rfl
                  · exact h2 e h
      · obtain ⟨evs, h1, h2⟩ := ih rAcc cAcc hokRest
        refine ⟨evs, ?_, h2⟩
        simp only [streamLoop, hEmpty, if_false]
        rw [if_neg (by simpa using hPre)]
        exact h1

/-- C1 counterexample: the claim fails as stated. The fragment
`data: \x7b"choices":[]\x7d` is valid JSON and misses no field the code
looks up by key, yet `chunk["choices"][0]` raises IndexError, which the
loop's `except json.JSONDecodeError` / `except KeyError` clauses do not
catch: on this concrete two-line input (that fragment, then
`data: [DONE]`) the generator yields NO event — in particular no final
`done` event — and terminates with the uncaught exception before
reaching the sentinel. -/
theorem c1_streaming_counterexample :
    call_deepseek_api_stream emptyChoicesParse emptyChoicesLines =
      ([], some (chars "list index out of range")) ∧
    propagatesException
      (call_deepseek_api_stream_run emptyChoicesParse
        (StreamTransport.ok emptyChoicesLines)) = true := by
  exact ⟨by decide, by decide⟩

/-- C1 (amended): Streaming aggregation on streams whose fragments never
raise an uncaught exception. For every parse oracle and finite list of
SSE lines none of which raises (each parsed `data: ` payload is either
recoverable-malformed or a delta), the yielded events are a list of
reasoning/content fragment events followed by exactly one final `done`
event whose reasoning and content fields are the concatenation, in
emission order, of all previously emitted reasoning fragments and
content fragments respectively, and no exception escapes; a
recoverable-malformed fragment yields no event and does not terminate
the loop; a raising fragment terminates the generator at once with no
event and no `done`; and the scripted input (reasoning fragment "Hi",
content fragment "Hello", `data: [DONE]`) yields exactly the three
events of the spec. -/
theorem c1_streaming_aggregation_amended :
    (∀ (parse : Str → FragParse) (lines : List Str),
      (∀ line ∈ lines, lineRaises parse line = false) →
      ∃ evs R C,
        call_deepseek_api_stream parse lines = (evs ++ [.done R C], none) ∧
        (∀ e ∈ evs, evIsDone e = false) ∧
        R = evReasonings evs ∧ C = evContents evs) ∧
    (∀ (parse : Str → FragParse) (line : Str) (rest : List Str) (rAcc cAcc : Str),
      line ≠ [] → (chars "data: ").isPrefixOf line = true →
      line.drop 6 ≠ chars "[DONE]" → parse (line.drop 6) = .malformed →
      streamLoop parse (line :: rest) rAcc cAcc = streamLoop parse rest rAcc cAcc) ∧
    (∀ (parse : Str → FragParse) (line : Str) (rest : List Str) (rAcc cAcc : Str)
        (e : Str),
      line ≠ [] → (chars "data: ").isPrefixOf line = true →
      line.drop 6 ≠ chars "[DONE]" → parse (line.drop 6) = .raises e →
      streamLoop parse (line :: rest) rAcc cAcc = ([], some e)) ∧
    call_deepseek_api_stream scriptedParse scriptedLines =
      ([.reasoning (chars "Hi"), .content (chars "Hello"),
        .done (chars "Hi") (chars "Hello")], none) := by
  refine ⟨?_, ?_, ?_, by decide⟩
  · intro parse lines hok
    obtain ⟨evs, h1, h2⟩ := streamLoop_spec parse lines [] [] hok
    exact ⟨evs, evReasonings evs, evContents evs,
      by simpa [call_deepseek_api_stream] using h1, h2, rfl, rfl⟩
  · intro parse line rest rAcc cAcc hEmpty hPre hDone hParse
    simp only [streamLoop, hEmpty, hPre, hDone, hParse, if_false, if_true]
  · intro parse line rest rAcc cAcc e hEmpty hPre hDone hParse
    simp only [streamLoop, hEmpty, hPre, hDone, hParse, if_false, if_true]

/-- C1 witness: the aggregation clause applied to the scripted input
(raise-freedom discharged by computation), the malformed-fragment
clause at the concrete line `data: x`, and the raising clause at the
concrete empty-choices fragment. -/
theorem c1_streaming_aggregation_amended_witness :
    (∃ evs R C,
      call_deepseek_api_stream scriptedParse scriptedLines =
        (evs ++ [.done R C], none) ∧
      (∀ e ∈ evs, evIsDone e = false) ∧
      R = evReasonings evs ∧ C = evContents evs) ∧
    streamLoop scriptedParse [chars "data: x"] [] [] =
      streamLoop scriptedParse [] [] [] ∧
    streamLoop emptyChoicesParse
        [chars "data: \x7b\"choices\":[]\x7d", chars "data: [DONE]"] [] [] =
      ([], some (chars "list index out of range")) :=
  ⟨c1_streaming_aggregation_amended.1 scriptedParse scriptedLines (by decide),
    c1_streaming_aggregation_amended.2.1 scriptedParse (chars "data: x") [] [] []
      (by decide) (by decide) (by decide) (by decide),
    c1_streaming_aggregation_amended.2.2.1 emptyChoicesParse
      (chars "data: \x7b\"choices\":[]\x7d") [chars "data: [DONE]"] [] []
      (chars "list index out of range")
      (by decide) (by decide) (by decide) (by decide)⟩

/- When documents are present and not yet attached, the base of the
request is the system message, the document pair, then the filtered
history, and the attachment flag comes back true. -/
lemma buildBase_fresh (sysP : Str) (docs : List Doc) (history : List Msg)
    (hd : docs ≠ []) :
    buildBase sysP docs false history =
      (systemMsg sysP :: docPreambleMsg docs :: ackMsg ::
        history.filter historyKeep, true) := by
  simp [buildBase, hd]

/- When documents are already attached or absent, the base is the system
message followed by the filtered history, flag unchanged. -/
lemma buildBase_stale (sysP : Str) (docs : List Doc) (attached : Bool)
    (history : List Msg) (h : attached = true ∨ docs = []) :
    buildBase sysP docs attached history =
      (systemMsg sysP :: history.filter historyKeep, attached) := by
  rcases h with h | h <;> simp [buildBase, h]

/- Step 4 either keeps the list or appends the one new user message. -/
lemma appendCurrentPrompt_cases (ms : List Msg) (p : Str) :
    appendCurrentPrompt ms p = ms ∨
    appendCurrentPrompt ms p = ms ++ [userMsg p] := by
  rw [appendCurrentPrompt]
  rcases ms.getLast? with _ | m
  · exact Or.inr rfl
  · by_cases h : m.role = chars "user" ∧ m.content = p
    · exact Or.inl (by simp [h.1, h.2])
    · refine Or.inr ?_
      rcases not_and_or.mp h with h | h <;> simp [h, userMsg]

lemma appendCurrentPrompt_skip {ms : List Msg} {p : Str} {m : Msg}
    (hlast : ms.getLast? = some m) (hrole : m.role = chars "user")
    (hcontent : m.content = p) :
    appendCurrentPrompt ms p = ms := by
  rw [appendCurrentPrompt, hlast]
  simp [hrole, hcontent]

lemma appendCurrentPrompt_append {ms : List Msg} {p : Str} {m : Msg}
    (hlast : ms.getLast? = some m)
    (h : m.role ≠ chars "user" ∨ m.content ≠ p) :
    appendCurrentPrompt ms p = ms ++ [userMsg p] := by
  rw [appendCurrentPrompt, hlast]
  rcases h with h | h <;> simp [h, userMsg]

/- The `context += ...` loop is the initial accumulator followed by one
labelled section per document, indices counting up from the start
index. -/
lemma docContextLoop_eq (l : List Doc) : ∀ (acc : Str) (n : Nat),
    docContextLoop acc n l =
      acc ++ ((List.enumFrom n l).map fun q => docSection q.1 q.2).flatten := by
  induction l with
  | nil => intro acc n; simp [docContextLoop]
  | cons d rest ih =>
    intro acc n
    simp [docContextLoop, ih, List.enumFrom]

/-- C2: One-time document attachment. Replacing the document store resets
`documents_attached` to false. When the document list is non-empty and
`documents_attached` is false, the built request is exactly: the system
message, one synthesized user message (fixed preamble, then one labelled
section per document in store order — `--- Document <1-based index>:
<name> ---` followed by the first 8,000 characters of its content), one
synthetic assistant acknowledgment, the filtered history, and possibly
the new user message; the returned flag is true. When the flag is true
or the list is empty, no preamble/acknowledgment pair is emitted. -/
theorem c2_one_time_document_attachment :
    (∀ (s : SessionState) (newDocs : List Doc),
      (replaceDocuments s newDocs).documents_attached = false) ∧
    (∀ (sysP : Str) (docs : List Doc) (history : List Msg) (p : Str),
      docs ≠ [] →
      ∃ t, (t = [] ∨ t = [userMsg p]) ∧
        build_conversation_messages sysP docs false history p =
          (systemMsg sysP :: docPreambleMsg docs :: ackMsg ::
            (history.filter historyKeep ++ t), true)) ∧
    (∀ docs : List Doc,
      (docPreambleMsg docs).content =
        chars "Please process the following documents. They are attached for reference throughout our conversation:\n\n"
          ++ (chars "=== DOCUMENTS ===\n\n"
            ++ ((List.enumFrom 1 docs).map fun q => docSection q.1 q.2).flatten)) ∧
    (∀ (sysP : Str) (docs : List Doc) (attached : Bool) (history : List Msg)
        (p : Str),
      attached = true ∨ docs = [] →
      ∃ t, (t = [] ∨ t = [userMsg p]) ∧
        build_conversation_messages sysP docs attached history p =
          (systemMsg sysP :: (history.filter historyKeep ++ t), attached)) := by
  refine ⟨fun s newDocs => rfl, ?_, ?_, ?_⟩
  · intro sysP docs history p hd
    rcases appendCurrentPrompt_cases (buildBase sysP docs false history).1 p
      with h | h
    · refine ⟨[], Or.inl rfl, ?_⟩
      rw [build_conversation_messages, h, buildBase_fresh sysP docs history hd]
      simp
    · refine ⟨[userMsg p], Or.inr rfl, ?_⟩
      rw [build_conversation_messages, h, buildBase_fresh sysP docs history hd]
      simp
  · intro docs
    simp [docPreambleMsg, docContext, docContextLoop_eq]
  · intro sysP docs attached history p h
    rcases appendCurrentPrompt_cases (buildBase sysP docs attached history).1 p
      with hc | hc
    · refine ⟨[], Or.inl rfl, ?_⟩
      rw [build_conversation_messages, hc,
        buildBase_stale sysP docs attached history h]
      simp
    · refine ⟨[userMsg p], Or.inr rfl, ?_⟩
      rw [build_conversation_messages, hc,
        buildBase_stale sysP docs attached history h]
      simp

/-- C2 witness: the non-empty/not-attached clause and the
attached clause applied at concrete inputs. -/
theorem c2_one_time_document_attachment_witness :
    (replaceDocuments sampleSessionAttached [sampleDoc]).documents_attached
      = false ∧
    (∃ t, (t = [] ∨ t = [userMsg (chars "go")]) ∧
      build_conversation_messages (chars "S") [sampleDoc] false
          [userMsg (chars "hi")] (chars "go") =
        (systemMsg (chars "S") :: docPreambleMsg [sampleDoc] :: ackMsg ::
          ([userMsg (chars "hi")].filter historyKeep ++ t), true)) ∧
    (∃ t, (t = [] ∨ t = [userMsg (chars "go")]) ∧
      build_conversation_messages (chars "S") [sampleDoc] true
          [userMsg (chars "hi")] (chars "go") =
        (systemMsg (chars "S") ::
          ([userMsg (chars "hi")].filter historyKeep ++ t), true)) :=
  ⟨c2_one_time_document_attachment.1 sampleSessionAttached [sampleDoc],
    c2_one_time_document_attachment.2.1 (chars "S") [sampleDoc]
      [userMsg (chars "hi")] (chars "go") (by decide),
    c2_one_time_document_attachment.2.2.2 (chars "S") [sampleDoc] true
      [userMsg (chars "hi")] (chars "go") (Or.inl rfl)⟩

/-- C4: Builder purity and idempotence. The built message list depends
only on (history, newUserText, docs, systemPrompt, documentsAttached) —
two sessions agreeing on those four state fields yield the same list for
the same prompt — and when `documents_attached` is already true a
builder call leaves the session unchanged, so calling it twice with
identical inputs yields identical outputs. -/
theorem c4_builder_purity_idempotence :
    (∀ (s₁ s₂ : SessionState) (p : Str),
      s₁.system_prompt = s₂.system_prompt →
      s₁.uploaded_files_content = s₂.uploaded_files_content →
      s₁.documents_attached = s₂.documents_attached →
      s₁.messages = s₂.messages →
      (buildStep s₁ p).1 = (buildStep s₂ p).1) ∧
    (∀ (s : SessionState) (p : Str), s.documents_attached = true →
      (buildStep s p).2 = s ∧
      buildStep ((buildStep s p).2) p = buildStep s p) := by
  constructor
  · intro s₁ s₂ p h1 h2 h3 h4
    simp only [buildStep, h1, h2, h3, h4]
  · intro s p h
    have h2 : (buildStep s p).2 = s := by
      cases s
      simp_all [buildStep, build_conversation_messages, buildBase]
    exact ⟨h2, by rw [h2]⟩

/-- C4 witness: the idempotence clause applied to a concrete session
with `documents_attached = true`, and the purity clause applied to two
concrete sessions differing only in the API key. -/
theorem c4_builder_purity_idempotence_witness :
    ((buildStep sampleSessionAttached (chars "go")).2 = sampleSessionAttached ∧
      buildStep ((buildStep sampleSessionAttached (chars "go")).2) (chars "go") =
        buildStep sampleSessionAttached (chars "go")) ∧
    (buildStep sampleSessionAttached (chars "go")).1 =
      (buildStep { sampleSessionAttached with api_key := chars "sk-2" }
        (chars "go")).1 :=
  ⟨c4_builder_purity_idempotence.2 sampleSessionAttached (chars "go") rfl,
    c4_builder_purity_idempotence.1 sampleSessionAttached
      { sampleSessionAttached with api_key := chars "sk-2" } (chars "go")
      rfl rfl rfl rfl⟩

/-- C5: Duplicate-submit guard. The new user text is appended as the
last message of the built request unless the message list built so far
(system message, optional document pair, filtered history) ends in a
user-role message with identical content; a trailing message of a
different role, or with different content, does not suppress the
append. -/
theorem c5_duplicate_submit_guard :
    (∀ (sysP : Str) (docs : List Doc) (attached : Bool) (history : List Msg)
        (p : Str) (m : Msg),
      (buildBase sysP docs attached history).1.getLast? = some m →
      m.role = chars "user" → m.content = p →
      (build_conversation_messages sysP docs attached history p).1 =
        (buildBase sysP docs attached history).1) ∧
    (∀ (sysP : Str) (docs : List Doc) (attached : Bool) (history : List Msg)
        (p : Str) (m : Msg),
      (buildBase sysP docs attached history).1.getLast? = some m →
      (m.role ≠ chars "user" ∨ m.content ≠ p) →
      (build_conversation_messages sysP docs attached history p).1 =
        (buildBase sysP docs attached history).1 ++ [userMsg p]) := by
  constructor
  · intro sysP docs attached history p m hlast hrole hcontent
    exact appendCurrentPrompt_skip hlast hrole hcontent
  · intro sysP docs attached history p m hlast h
    exact appendCurrentPrompt_append hlast h

/-- C5 witness: a trailing user message with identical content is not
re-appended; a trailing assistant message with identical content is no
bar to the append. -/
theorem c5_duplicate_submit_guard_witness :
    (build_conversation_messages (chars "S") [] true [userMsg (chars "hi")]
        (chars "hi")).1 =
      (buildBase (chars "S") [] true [userMsg (chars "hi")]).1 ∧
    (build_conversation_messages (chars "S") [] true
        [{ role := chars "assistant", content := chars "hi" }] (chars "hi")).1 =
      (buildBase (chars "S") [] true
        [{ role := chars "assistant", content := chars "hi" }]).1
        ++ [userMsg (chars "hi")] :=
  ⟨c5_duplicate_submit_guard.1 (chars "S") [] true [userMsg (chars "hi")]
      (chars "hi") (userMsg (chars "hi")) (by decide) (by decide) (by decide),
    c5_duplicate_submit_guard.2 (chars "S") [] true
      [{ role := chars "assistant", content := chars "hi" }] (chars "hi")
      { role := chars "assistant", content := chars "hi" } (by decide)
      (Or.inl (by decide))⟩

/-- C6: Reasoning never replayed. The built request contains every
history message whose role is user or assistant (the `historyKeep`
filter), as a contiguous run in original order, and no message of the
built request — for any inputs — has role `assistant_reasoning`. -/
theorem c6_reasoning_never_replayed :
    ∀ (sysP : Str) (docs : List Doc) (attached : Bool) (history : List Msg)
      (p : Str),
      (history.filter historyKeep) <:+:
        (build_conversation_messages sysP docs attached history p).1 ∧
      (∀ m ∈ history, historyKeep m = true →
        m ∈ (build_conversation_messages sysP docs attached history p).1) ∧
      (∀ m ∈ (build_conversation_messages sysP docs attached history p).1,
        m.role ≠ chars "assistant_reasoning") := by
  intro sysP docs attached history p
  obtain ⟨pre, hbase, hpre⟩ : ∃ pre,
      (buildBase sysP docs attached history).1 =
        pre ++ history.filter historyKeep ∧
      ∀ m ∈ pre, m.role ≠ chars "assistant_reasoning" := by
    by_cases hc : (!docs.isEmpty && !attached) = true
    · refine ⟨[systemMsg sysP, docPreambleMsg docs, ackMsg],
        by simp [buildBase, hc], ?_⟩
      intro m hm
      simp only [List.mem_cons, List.not_mem_nil, or_false] at hm
      rcases hm with rfl | rfl | rfl
      · exact (by decide : chars "system" ≠ chars "assistant_reasoning")
      · exact (by decide : chars "user" ≠ chars "assistant_reasoning")
      · exact (by decide : chars "assistant" ≠ chars "assistant_reasoning")
    · refine ⟨[systemMsg sysP], by simp [buildBase, hc], ?_⟩
      intro m hm
      simp only [List.mem_cons, List.not_mem_nil, or_false] at hm
      subst hm
      exact (by decide : chars "system" ≠ chars "assistant_reasoning")
  obtain ⟨t, ht, hbuild⟩ : ∃ t, (t = [] ∨ t = [userMsg p]) ∧
      (build_conversation_messages sysP docs attached history p).1 =
        pre ++ (history.filter historyKeep ++ t) := by
    rcases appendCurrentPrompt_cases (buildBase sysP docs attached history).1 p
      with h | h
    · refine ⟨[], Or.inl rfl, ?_⟩
      show appendCurrentPrompt (buildBase sysP docs attached history).1 p = _
      rw [h, hbase]
      simp
    · refine ⟨[userMsg p], Or.inr rfl, ?_⟩
      show appendCurrentPrompt (buildBase sysP docs attached history).1 p = _
      rw [h, hbase]
      simp
  refine ⟨⟨pre, t, by rw [hbuild, List.append_assoc]⟩, ?_, ?_⟩
  · intro m hm hk
    rw [hbuild]
    exact List.mem_append.mpr (Or.inr
      (List.mem_append.mpr (Or.inl (List.mem_filter.mpr ⟨hm, hk⟩))))
  · intro m hm
    rw [hbuild] at hm
    rcases List.mem_append.mp hm with hm | hm
    · exact hpre m hm
    · rcases List.mem_append.mp hm with hm | hm
      · have hk := (List.mem_filter.mp hm).2
        simp only [historyKeep, Bool.or_eq_true, decide_eq_true_eq] at hk
        rcases hk with hk | hk <;> rw [hk] <;> decide
      · rcases ht with rfl | rfl
        · exact absurd hm (List.not_mem_nil m)
        · simp only [List.mem_cons, List.not_mem_nil, or_false] at hm
          subst hm
          exact (by decide : chars "user" ≠ chars "assistant_reasoning")

/-- C6 witness: the filtered-history infix and the membership clause at
concrete inputs. -/
theorem c6_reasoning_never_replayed_witness :
    ([userMsg (chars "hi")].filter historyKeep) <:+:
      (build_conversation_messages (chars "S") [] true [userMsg (chars "hi")]
        (chars "go")).1 ∧
    userMsg (chars "hi") ∈
      (build_conversation_messages (chars "S") [] true [userMsg (chars "hi")]
        (chars "go")).1 :=
  ⟨(c6_reasoning_never_replayed (chars "S") [] true [userMsg (chars "hi")]
      (chars "go")).1,
    (c6_reasoning_never_replayed (chars "S") [] true [userMsg (chars "hi")]
      (chars "go")).2.1 (userMsg (chars "hi")) (by decide) (by decide)⟩

/-- C10: Builder frame. A builder call leaves the chat history, the
document store, the system prompt and every other session field
unchanged except `documents_attached`, which it sets to true exactly
when it emits the document preamble/acknowledgment pair (documents
non-empty and flag previously false) and leaves unchanged otherwise. -/
theorem c10_builder_frame :
    ∀ (s : SessionState) (p : Str),
      (buildStep s p).2.messages = s.messages ∧
      (buildStep s p).2.api_key = s.api_key ∧
      (buildStep s p).2.uploaded_files_content = s.uploaded_files_content ∧
      (buildStep s p).2.current_mode = s.current_mode ∧
      (buildStep s p).2.system_prompt = s.system_prompt ∧
      (buildStep s p).2.stream = s.stream ∧
      (buildStep s p).2.template = s.template ∧
      (buildStep s p).2.documents_attached =
        (s.documents_attached || !s.uploaded_files_content.isEmpty) ∧
      (s.documents_attached = false → s.uploaded_files_content ≠ [] →
        ∃ t, (t = [] ∨ t = [userMsg p]) ∧
          (buildStep s p).1 =
            systemMsg s.system_prompt ::
              docPreambleMsg s.uploaded_files_content :: ackMsg ::
              (s.messages.filter historyKeep ++ t)) ∧
      ((s.documents_attached = true ∨ s.uploaded_files_content = []) →
        (buildStep s p).2.documents_attached = s.documents_attached ∧
        ∃ t, (t = [] ∨ t = [userMsg p]) ∧
          (buildStep s p).1 =
            systemMsg s.system_prompt ::
              (s.messages.filter historyKeep ++ t)) := by
  intro s p
  refine ⟨rfl, rfl, rfl, rfl, rfl, rfl, rfl, ?_, ?_, ?_⟩
  · show (buildBase s.system_prompt s.uploaded_files_content
      s.documents_attached s.messages).2 = _
    cases hatt : s.documents_attached <;>
      cases hemp : s.uploaded_files_content.isEmpty <;>
      simp [buildBase, hatt, hemp]
  · intro hatt hemp
    have hb := buildBase_fresh s.system_prompt s.uploaded_files_content
      s.messages hemp
    rcases appendCurrentPrompt_cases (buildBase s.system_prompt
        s.uploaded_files_content s.documents_attached s.messages).1 p
      with h | h
    · refine ⟨[], Or.inl rfl, ?_⟩
      show appendCurrentPrompt (buildBase s.system_prompt
        s.uploaded_files_content s.documents_attached s.messages).1 p = _
      rw [h, hatt, hb]
      simp
    · refine ⟨[userMsg p], Or.inr rfl, ?_⟩
      show appendCurrentPrompt (buildBase s.system_prompt
        s.uploaded_files_content s.documents_attached s.messages).1 p = _
      rw [h, hatt, hb]
      simp
  · intro h
    have hb := buildBase_stale s.system_prompt s.uploaded_files_content
      s.documents_attached s.messages h
    constructor
    · show (buildBase s.system_prompt s.uploaded_files_content
        s.documents_attached s.messages).2 = _
      rw [hb]
    · rcases appendCurrentPrompt_cases (buildBase s.system_prompt
          s.uploaded_files_content s.documents_attached s.messages).1 p
        with hc | hc
      · refine ⟨[], Or.inl rfl, ?_⟩
        show appendCurrentPrompt (buildBase s.system_prompt
          s.uploaded_files_content s.documents_attached s.messages).1 p = _
        rw [hc, hb]
        simp
      · refine ⟨[userMsg p], Or.inr rfl, ?_⟩
        show appendCurrentPrompt (buildBase s.system_prompt
          s.uploaded_files_content s.documents_attached s.messages).1 p = _
        rw [hc, hb]
        simp

/-- C10 witness: the frame and the fresh-attachment clause at a concrete
session with documents pending attachment. -/
theorem c10_builder_frame_witness :
    (buildStep sampleSession (chars "go")).2.messages =
      sampleSession.messages ∧
    (∃ t, (t = [] ∨ t = [userMsg (chars "go")]) ∧
      (buildStep sampleSession (chars "go")).1 =
        systemMsg sampleSession.system_prompt ::
          docPreambleMsg sampleSession.uploaded_files_content :: ackMsg ::
          (sampleSession.messages.filter historyKeep ++ t)) :=
  ⟨(c10_builder_frame sampleSession (chars "go")).1,
    (c10_builder_frame sampleSession (chars "go")).2.2.2.2.2.2.2.2.1
      rfl (by decide)⟩

/-- C3 counterexample: in streaming mode a transport failure is NOT
recovered — the generator body (including the HTTP POST) runs only when
the consumer iterates, outside the `try/except` of `call_deepseek_api`,
so the exception propagates to the consumer and no event (in particular
no connection-error message) is produced. -/
theorem c3_transport_failure_counterexample :
    propagatesException
      (call_deepseek_api_stream_run constMalformed
        (StreamTransport.exn (chars "Read timed out."))) = true ∧
    (call_deepseek_api_stream_run constMalformed
      (StreamTransport.exn (chars "Read timed out."))).1 = [] :=
  ⟨rfl, rfl⟩

/-- C3 (amended): in buffered mode every transport-level failure is
recovered as a connection-error result with empty reasoning and no
exception propagates; in streaming mode the transport failure instead
propagates as an exception to the consumer, with no events emitted. -/
theorem c3_transport_failures_amended :
    (∀ e : Str, call_deepseek_api (HttpOutcome.exn e) =
      { content := chars "❌ Connection Error: " ++ e, reasoning := [] }) ∧
    (∀ (parse : Str → FragParse) (e : Str),
      call_deepseek_api_stream_run parse (StreamTransport.exn e) =
        ([], some e)) :=
  ⟨fun _ => rfl, fun _ _ => rfl⟩

/-- C8: Non-200 recovery in buffered mode. Every response with a non-200
status yields a formatted error string embedding the status code and the
raw body, with empty reasoning and no exception; at status 401 with body
"unauthorized" the content contains both "401" and "unauthorized". -/
theorem c8_non200_recovery :
    (∀ (status : Nat) (text : Str) (body : BodyJson), status ≠ 200 →
      call_deepseek_api (HttpOutcome.resp status text body) =
        { content := chars "❌ API Error: " ++ chars (Nat.repr status)
            ++ chars " - " ++ text,
          reasoning := [] }) ∧
    chars "401" <:+:
      (call_deepseek_api (HttpOutcome.resp 401 (chars "unauthorized")
        (BodyJson.parsed none))).content ∧
    chars "unauthorized" <:+:
      (call_deepseek_api (HttpOutcome.resp 401 (chars "unauthorized")
        (BodyJson.parsed none))).content ∧
    (call_deepseek_api (HttpOutcome.resp 401 (chars "unauthorized")
      (BodyJson.parsed none))).reasoning = [] := by
  refine ⟨?_, by decide, by decide, by decide⟩
  intro status text body h
  simp [call_deepseek_api, h]

/-- C8 witness: the non-200 clause applied at status 401 with body
"unauthorized". -/
theorem c8_non200_recovery_witness :
    call_deepseek_api (HttpOutcome.resp 401 (chars "unauthorized")
        (BodyJson.parsed none)) =
      { content := chars "❌ API Error: 401 - unauthorized",
        reasoning := [] } := by
  have h := c8_non200_recovery.1 401 (chars "unauthorized")
    (BodyJson.parsed none) (by decide)
  rw [h]
  decide

/-- C9: Malformed success response recovered in buffered mode. Whenever
the 200-response field extraction raises (invalid JSON, missing
"choices", empty choices, a choice without "message", a message without
"content"), `call_deepseek_api` returns a connection-error content with
empty reasoning — the same recovery shape as a transport failure — and
each of those malformed shapes does make the extraction raise. -/
theorem c9_malformed_success_recovered :
    (∀ (text : Str) (body : BodyJson) (e : Str),
      extractResult body = Except.error e →
      call_deepseek_api (HttpOutcome.resp 200 text body) =
        { content := chars "❌ Connection Error: " ++ e, reasoning := [] }) ∧
    (∀ emsg : Str,
      extractResult (BodyJson.invalid emsg) = Except.error emsg) ∧
    extractResult (BodyJson.parsed none) =
      Except.error (chars "\x27choices\x27") ∧
    extractResult (BodyJson.parsed (some [])) =
      Except.error (chars "list index out of range") ∧
    extractResult (BodyJson.parsed (some [{ message := none }])) =
      Except.error (chars "\x27message\x27") ∧
    (∀ rc : Option Str,
      extractResult (BodyJson.parsed (some
          [{ message := some { content := none, reasoning_content := rc } }])) =
        Except.error (chars "\x27content\x27")) := by
  refine ⟨?_, fun _ => rfl, rfl, rfl, rfl, fun _ => rfl⟩
  intro text body e h
  simp [call_deepseek_api, h]

/-- C9 witness: the recovery clause applied to the concrete 200 response
whose body has no "choices" key. -/
theorem c9_malformed_success_recovered_witness :
    call_deepseek_api (HttpOutcome.resp 200 [] (BodyJson.parsed none)) =
      { content := chars "❌ Connection Error: \x27choices\x27",
        reasoning := [] } := by
  have h := c9_malformed_success_recovered.1 [] (BodyJson.parsed none)
    (chars "\x27choices\x27") rfl
  rw [h]
  decide

/- A pattern holding a character different from `c` is not a substring
of a repetition of `c`. -/
lemma pyContains_replicate_eq_false {pat : Str} {c : Char} {n : Nat}
    (x : Char) (hx : x ∈ pat) (hne : x ≠ c) :
    pyContains pat (List.replicate n c) = false := by
  simp only [pyContains, decide_eq_false_iff_not]
  intro h
  exact hne (List.eq_of_mem_replicate (h.sublist.subset hx))

/-- C7 counterexample: for the 50,001-character unsupported declared
type `hugeFileType`, the stored content is NOT exactly the placeholder
`[Unsupported file type: <type>]` — the placeholder itself is truncated
to the 50,000-character cap. -/
theorem c7_extraction_counterexample :
    (process_uploaded_file (chars "f") hugeFileType [] [] []).content ≠
      unsupportedPlaceholder hugeFileType := by
  have hpdf : pyContains (chars "pdf") hugeFileType = false :=
    pyContains_replicate_eq_false 'p' (by decide) (by decide)
  have hword : pyContains (chars "word") hugeFileType = false :=
    pyContains_replicate_eq_false 'w' (by decide) (by decide)
  have hdocx : pyContains (chars "docx") hugeFileType = false :=
    pyContains_replicate_eq_false 'd' (by decide) (by decide)
  have htext : pyContains (chars "text") hugeFileType = false :=
    pyContains_replicate_eq_false 't' (by decide) (by decide)
  have htxt : pyContains (chars "txt") hugeFileType = false :=
    pyContains_replicate_eq_false 't' (by decide) (by decide)
  have hcontent : (process_uploaded_file (chars "f") hugeFileType [] [] []).content
      = (unsupportedPlaceholder hugeFileType).take 50000 := by
    simp [process_uploaded_file, hpdf, hword, hdocx, htext, htxt]
  have h24 : (chars "[Unsupported file type: ").length = 24 := rfl
  have h1 : (chars "]").length = 1 := rfl
  have hft : hugeFileType.length = 50001 := by
    rw [hugeFileType, List.length_replicate]
  have hlenP : (unsupportedPlaceholder hugeFileType).length = 50026 := by
    rw [unsupportedPlaceholder, List.length_append, List.length_append,
      h24, hft, h1]
  have hlenT : ((unsupportedPlaceholder hugeFileType).take 50000).length
      = 50000 := by
    rw [List.length_take, hlenP]
    omega
  intro hEq
  have hlen : ((unsupportedPlaceholder hugeFileType).take 50000).length =
      (unsupportedPlaceholder hugeFileType).length := by
    rw [← hcontent, hEq]
  rw [hlenT, hlenP] at hlen
  exact absurd hlen (by norm_num)

/-- C7 (amended): for every uploaded file the stored record has content
equal to the first 50,000 characters of the routed text and size equal
to its untruncated length; in particular whenever the untruncated text
exceeds 50,000 characters the stored content has length exactly 50,000;
for a declared type matching none of the pdf/word/docx/text/txt
categories the routed text is the placeholder `[Unsupported file type:
<type>]` — stored exactly whenever the placeholder fits the cap. -/
theorem c7_extraction_postcondition_amended :
    (∀ (fileName fileType pdfText docxText txtText : Str),
      pyContains (chars "pdf") fileType = true →
      process_uploaded_file fileName fileType pdfText docxText txtText =
        { name := fileName, content := pdfText.take 50000,
          size := pdfText.length }) ∧
    (∀ (fileName fileType pdfText docxText txtText : Str),
      pyContains (chars "pdf") fileType = false →
      (pyContains (chars "word") fileType
        || pyContains (chars "docx") fileType) = true →
      process_uploaded_file fileName fileType pdfText docxText txtText =
        { name := fileName, content := docxText.take 50000,
          size := docxText.length }) ∧
    (∀ (fileName fileType pdfText docxText txtText : Str),
      pyContains (chars "pdf") fileType = false →
      (pyContains (chars "word") fileType
        || pyContains (chars "docx") fileType) = false →
      (pyContains (chars "text") fileType
        || pyContains (chars "txt") fileType) = true →
      process_uploaded_file fileName fileType pdfText docxText txtText =
        { name := fileName, content := txtText.take 50000,
          size := txtText.length }) ∧
    (∀ (fileName fileType pdfText docxText txtText : Str),
      pyContains (chars "pdf") fileType = false →
      (pyContains (chars "word") fileType
        || pyContains (chars "docx") fileType) = false →
      (pyContains (chars "text") fileType
        || pyContains (chars "txt") fileType) = false →
      process_uploaded_file fileName fileType pdfText docxText txtText =
        { name := fileName,
          content := (unsupportedPlaceholder fileType).take 50000,
          size := (unsupportedPlaceholder fileType).length }) ∧
    (∀ (fileName fileType pdfText docxText txtText : Str),
      pyContains (chars "pdf") fileType = false →
      (pyContains (chars "word") fileType
        || pyContains (chars "docx") fileType) = false →
      (pyContains (chars "text") fileType
        || pyContains (chars "txt") fileType) = false →
      (unsupportedPlaceholder fileType).length ≤ 50000 →
      (process_uploaded_file fileName fileType pdfText docxText txtText).content
        = unsupportedPlaceholder fileType) ∧
    (∀ (fileName fileType pdfText docxText txtText : Str),
      50000 <
        (process_uploaded_file fileName fileType pdfText docxText txtText).size →
      (process_uploaded_file fileName fileType pdfText docxText
        txtText).content.length = 50000) := by
  refine ⟨?_, ?_, ?_, ?_, ?_, ?_⟩
  · intro fileName fileType pdfText docxText txtText h1
    simp [process_uploaded_file, h1]
  · intro fileName fileType pdfText docxText txtText h1 h2
    simp [process_uploaded_file, h1, h2]
  · intro fileName fileType pdfText docxText txtText h1 h2 h3
    simp [process_uploaded_file, h1, h2, h3]
  · intro fileName fileType pdfText docxText txtText h1 h2 h3
    simp [process_uploaded_file, h1, h2, h3]
  · intro fileName fileType pdfText docxText txtText h1 h2 h3 h4
    have h := List.take_of_length_le h4
    simp [process_uploaded_file, h1, h2, h3, h]
  · intro fileName fileType pdfText docxText txtText h
    obtain ⟨T, hT⟩ : ∃ T : Str,
        process_uploaded_file fileName fileType pdfText docxText txtText =
          { name := fileName, content := T.take 50000, size := T.length } :=
      ⟨_, rfl⟩
    rw [hT] at h ⊢
    simp only [List.length_take] at *
    omega

/-- C7 witness: the pdf route and the exact-placeholder clause at the
concrete declared types "application/pdf" and "image/png". -/
theorem c7_extraction_postcondition_amended_witness :
    process_uploaded_file (chars "f.pdf") (chars "application/pdf")
        (chars "P") (chars "D") (chars "T") =
      { name := chars "f.pdf", content := (chars "P").take 50000,
        size := (chars "P").length } ∧
    (process_uploaded_file (chars "img") (chars "image/png")
        [] [] []).content =
      unsupportedPlaceholder (chars "image/png") :=
  ⟨c7_extraction_postcondition_amended.1 (chars "f.pdf")
      (chars "application/pdf") (chars "P") (chars "D") (chars "T")
      (by decide),
    c7_extraction_postcondition_amended.2.2.2.2.1 (chars "img")
      (chars "image/png") [] [] [] (by decide) (by decide) (by decide)
      (by decide)⟩
